import Mathlib

/-!
# MetriClock: verification of the dual-clock timekeeping core

Shallow embedding of `metriClock.cpp` (an Arduino AVR sketch).  Machine
integer conventions on the AVR target: `int` is 16-bit signed, `long` is
32-bit signed, `unsigned long` is 32-bit unsigned.  `millis()` values and
the stored tick deadlines are `unsigned long`, modelled as naturals below
`2^32`; conversions of unsigned values to the signed types reinterpret the
low bits (two's complement), modelled by `toSigned16` / `toSigned32`.
C++ `/` and `%` on signed operands truncate toward zero, modelled by
`Int.tdiv` / `Int.tmod`.

The hardware `millis()` counter is sampled once per loop iteration and
passed in as the parameter `now`; within one iteration all samples of
`millis()` coincide in the model.
-/

/-- `2^32`, the wrap modulus of `unsigned long` and of the `millis()` counter. -/
def UINT32_MOD : Nat := 4294967296

/-- `2^16`, the wrap modulus of a 16-bit `int` on AVR. -/
def UINT16_MOD : Nat := 65536

/-- Reinterpret an unsigned value as a 32-bit two's-complement signed value
(conversion `unsigned long` → `long`). -/
def toSigned32 (x : Nat) : Int :=
  if x % UINT32_MOD < 2147483648 then ((x % UINT32_MOD : Nat) : Int)
  else ((x % UINT32_MOD : Nat) : Int) - (UINT32_MOD : Int)

/-- Reinterpret an unsigned value as a 16-bit two's-complement signed value
(conversion `unsigned long` → `int` on AVR, which keeps the low 16 bits). -/
def toSigned16 (x : Nat) : Int :=
  if x % UINT16_MOD < 32768 then ((x % UINT16_MOD : Nat) : Int)
  else ((x % UINT16_MOD : Nat) : Int) - (UINT16_MOD : Int)

/-- The five global clock variables of `metriClock.cpp`:
`metricTime`, `realTime` (`long`), and `nextMetricTick`, `nextRealTick`,
`lastSync` (`unsigned long`). -/
structure ClockState where
  metricTime : Int
  realTime : Int
  nextMetricTick : Nat
  nextRealTick : Nat
  lastSync : Nat
deriving Repr, DecidableEq

/-- The initial values of the globals. -/
def initialState : ClockState :=
  { metricTime := 0, realTime := 0, nextMetricTick := 864,
    nextRealTick := 1000, lastSync := 0 }

/-- A local calendar time as produced by `ET.toLocal` / `hour`,`minute`,`second`. -/
structure LocalInstant where
  hour : Nat
  minute : Nat
  second : Nat
deriving Repr, DecidableEq

/-- The time decoded by the GPS parser (`gps.time` / `gps.date`), together
with its validity flag. -/
structure GPSTime where
  valid : Bool
  hour : Nat
  minute : Nat
  second : Nat
  day : Nat
  month : Nat
  year : Nat
deriving Repr, DecidableEq

/-- The Time library's authoritative clock, set by `setTime(...)`. -/
structure TimeLibState where
  hour : Nat
  minute : Nat
  second : Nat
  day : Nat
  month : Nat
  year : Nat
deriving Repr, DecidableEq

/-- `getGPSTime`: if the GPS time is invalid, return without touching the
authoritative clock; otherwise `setTime` it from the decoded GPS fields. -/
def getGPSTime (g : GPSTime) (t : TimeLibState) : TimeLibState :=
  if g.valid = false then t
  else { hour := g.hour, minute := g.minute, second := g.second,
         day := g.day, month := g.month, year := g.year }

/-- `setRealTime`: recompute `realTime` from the local instant obtained by
timezone conversion, and re-phase the real tick deadline to `millis() + 1000`. -/
def setRealTime (li : LocalInstant) (now : Nat) (st : ClockState) : ClockState :=
  { st with
    realTime := (li.hour : Int) * 3600 + (li.minute : Int) * 60 + (li.second : Int),
    nextRealTick := (now + 1000) % UINT32_MOD }

/-- `setMetricTime`: `metricTime = (realTime * 1000) / 864; metricTime %= 100000;`
and re-phase the metric tick deadline to `millis() + 864`. -/
def setMetricTime (now : Nat) (st : ClockState) : ClockState :=
  { st with
    metricTime := ((st.realTime * 1000).tdiv 864).tmod 100000,
    nextMetricTick := (now + 864) % UINT32_MOD }

/-- The clock state after a full resync from local instant `li` at time `now`
(the `setRealTime(); setMetricTime();` part of `syncGPSTime`). -/
def resyncClock (li : LocalInstant) (now : Nat) (st : ClockState) : ClockState :=
  setMetricTime now (setRealTime li now st)

/-- `updateRealTime` (state part): `realTime++; realTime %= 86400;`. -/
def updateRealTimeState (st : ClockState) : ClockState :=
  { st with realTime := (st.realTime + 1).tmod 86400 }

/-- `updateMetricTime` (state part): `metricTime++; metricTime %= 100000;`. -/
def updateMetricTimeState (st : ClockState) : ClockState :=
  { st with metricTime := (st.metricTime + 1).tmod 100000 }

/-- Helper: `resyncClock` computes `realTime` as the exact second count. -/
theorem resyncClock_realTime (li : LocalInstant) (now : Nat) (st : ClockState) :
    (resyncClock li now st).realTime =
      (li.hour : Int) * 3600 + (li.minute : Int) * 60 + (li.second : Int) := rfl

/-- Helper: `resyncClock` computes `metricTime` as a natural-number floor
division, `(h*3600 + m*60 + s) * 1000 / 864 % 100000`. -/
theorem resyncClock_metricTime (li : LocalInstant) (now : Nat) (st : ClockState) :
    (resyncClock li now st).metricTime =
      (((li.hour * 3600 + li.minute * 60 + li.second) * 1000 / 864 % 100000 : Nat) : Int) := by
  show ((((li.hour : Int) * 3600 + (li.minute : Int) * 60 + (li.second : Int)) * 1000).tdiv
      864).tmod 100000 = _
  have hr : ((li.hour : Int) * 3600 + (li.minute : Int) * 60 + (li.second : Int)) * 1000 =
      (((li.hour * 3600 + li.minute * 60 + li.second) * 1000 : Nat) : Int) := by
    push_cast; ring
  rw [hr]
  norm_cast

/-- C3: for every valid local instant, resync sets
`RealTime = hour*3600 + minute*60 + second` exactly and
`MetricTime = floor(RealTime * 1000 / 864) mod 100000`, with
`resync(23,59,59) = (86399, 99998)` and `resync(0,0,0) = (0, 0)`. -/
theorem spec_C3 (li : LocalInstant) (now : Nat) (st : ClockState)
    (hh : li.hour ≤ 23) (hm : li.minute ≤ 59) (hs : li.second ≤ 59) :
    ((resyncClock li now st).realTime =
        ((li.hour * 3600 + li.minute * 60 + li.second : Nat) : Int) ∧
      (resyncClock li now st).metricTime =
        (((li.hour * 3600 + li.minute * 60 + li.second) * 1000 / 864 % 100000 : Nat) : Int)) ∧
    (∀ st' now', (resyncClock ⟨23, 59, 59⟩ now' st').realTime = 86399 ∧
        (resyncClock ⟨23, 59, 59⟩ now' st').metricTime = 99998) ∧
    (∀ st' now', (resyncClock ⟨0, 0, 0⟩ now' st').realTime = 0 ∧
        (resyncClock ⟨0, 0, 0⟩ now' st').metricTime = 0) := by
  refine ⟨⟨by push_cast [resyncClock_realTime]; ring, resyncClock_metricTime li now st⟩, ?_, ?_⟩
  · intro st' now'
    constructor <;> rfl
  · intro st' now'
    constructor <;> rfl

/-- C3 witness at a concrete instant. -/
theorem spec_C3_witness :
    (resyncClock ⟨23, 59, 59⟩ 0 initialState).realTime = 86399 ∧
      (resyncClock ⟨23, 59, 59⟩ 0 initialState).metricTime = 99998 :=
  ((spec_C3 ⟨23, 59, 59⟩ 0 initialState (by decide) (by decide) (by decide)).2.1
    initialState 0)

/-- Helper: one real tick from a value congruent to `n` advances to `n + 1`,
modulo 86400. -/
theorem realTick_step (n : Nat) :
    (((n : Int) % 86400) + 1).tmod 86400 = ((n + 1 : Nat) : Int) % 86400 := by
  have h0 : (0:Int) ≤ (n : Int) % 86400 := Int.emod_nonneg _ (by norm_num)
  rw [Int.tmod_eq_emod (by omega) (by norm_num)]
  push_cast
  omega

/-- Helper: one metric tick from a value congruent to `n` advances to `n + 1`,
modulo 100000. -/
theorem metricTick_step (n : Nat) :
    (((n : Int) % 100000) + 1).tmod 100000 = ((n + 1 : Nat) : Int) % 100000 := by
  have h0 : (0:Int) ≤ (n : Int) % 100000 := Int.emod_nonneg _ (by norm_num)
  rw [Int.tmod_eq_emod (by omega) (by norm_num)]
  push_cast
  omega

/-- Helper: iterating `updateRealTime` `n` times from `RealTime = 0` gives
`n mod 86400`. -/
theorem realTick_iterate (n : Nat) (st : ClockState) (h : st.realTime = 0) :
    (updateRealTimeState^[n] st).realTime = ((n % 86400 : Nat) : Int) := by
  induction n with
  | zero => simpa using h
  | succ n ih =>
      rw [Function.iterate_succ_apply']
      show ((updateRealTimeState^[n] st).realTime + 1).tmod 86400 = _
      rw [ih]
      have h2 := realTick_step n
      push_cast at h2 ⊢
      exact h2

/-- Helper: iterating `updateMetricTime` `n` times from `MetricTime = 0` gives
`n mod 100000`. -/
theorem metricTick_iterate (n : Nat) (st : ClockState) (h : st.metricTime = 0) :
    (updateMetricTimeState^[n] st).metricTime = ((n % 100000 : Nat) : Int) := by
  induction n with
  | zero => simpa using h
  | succ n ih =>
      rw [Function.iterate_succ_apply']
      show ((updateMetricTimeState^[n] st).metricTime + 1).tmod 100000 = _
      rw [ih]
      have h2 := metricTick_step n
      push_cast at h2 ⊢
      exact h2

/-- C6: starting from `RealTime = 0`, after `n` real-clock ticks `RealTime`
equals `n mod 86400`; starting from `MetricTime = 0`, after `n` metric-clock
ticks `MetricTime` equals `n mod 100000`. -/
theorem spec_C6 (n : Nat) (st₁ st₂ : ClockState)
    (h₁ : st₁.realTime = 0) (h₂ : st₂.metricTime = 0) :
    (updateRealTimeState^[n] st₁).realTime = ((n % 86400 : Nat) : Int) ∧
      (updateMetricTimeState^[n] st₂).metricTime = ((n % 100000 : Nat) : Int) :=
  ⟨realTick_iterate n st₁ h₁, metricTick_iterate n st₂ h₂⟩

/-- C6 witness at `n = 3` from the initial state. -/
theorem spec_C6_witness :
    (updateRealTimeState^[3] initialState).realTime = ((3 % 86400 : Nat) : Int) ∧
      (updateMetricTimeState^[3] initialState).metricTime = ((3 % 100000 : Nat) : Int) :=
  spec_C6 3 initialState initialState rfl rfl

/-- The documented range invariant: `RealTime ∈ [0, 86400)` and
`MetricTime ∈ [0, 100000)`. -/
def InRange (st : ClockState) : Prop :=
  0 ≤ st.realTime ∧ st.realTime < 86400 ∧ 0 ≤ st.metricTime ∧ st.metricTime < 100000

instance : DecidablePred InRange := fun st => by
  unfold InRange; infer_instance

/-- Helper: `tmod` of a nonnegative value by a positive modulus stays in range. -/
theorem tmod_range (x m : Int) (hx : 0 ≤ x) (hm : 0 < m) :
    0 ≤ x.tmod m ∧ x.tmod m < m := by
  rw [Int.tmod_eq_emod hx (le_of_lt hm)]
  exact ⟨Int.emod_nonneg _ (by omega), Int.emod_lt_of_pos _ hm⟩

/-- C7: every tick and every resync from a valid local instant preserves the
range invariant; the counters wrap to 0 and never go negative. -/
theorem spec_C7 (st : ClockState) (h : InRange st) :
    InRange (updateRealTimeState st) ∧ InRange (updateMetricTimeState st) ∧
      ∀ (li : LocalInstant) (now : Nat), li.hour ≤ 23 → li.minute ≤ 59 → li.second ≤ 59 →
        InRange (resyncClock li now st) := by
  obtain ⟨h1, h2, h3, h4⟩ := h
  refine ⟨⟨?_, ?_, h3, h4⟩, ⟨h1, h2, ?_, ?_⟩, ?_⟩
  · exact (tmod_range _ _ (by omega) (by norm_num)).1
  · exact (tmod_range _ _ (by omega) (by norm_num)).2
  · exact (tmod_range _ _ (by omega) (by norm_num)).1
  · exact (tmod_range _ _ (by omega) (by norm_num)).2
  · intro li now hh hm hs
    have hr := resyncClock_realTime li now st
    have hmt := resyncClock_metricTime li now st
    have hmod : (li.hour * 3600 + li.minute * 60 + li.second) * 1000 / 864 % 100000 < 100000 :=
      Nat.mod_lt _ (by norm_num)
    refine ⟨by rw [hr]; omega, by rw [hr]; omega, ?_, ?_⟩
    · rw [hmt]
      exact_mod_cast Nat.zero_le _
    · rw [hmt]
      exact_mod_cast hmod

/-- C7 witness at a concrete in-range state and instant. -/
theorem spec_C7_witness :
    InRange (updateRealTimeState initialState) ∧
      InRange (updateMetricTimeState initialState) ∧
      ∀ (li : LocalInstant) (now : Nat), li.hour ≤ 23 → li.minute ≤ 59 → li.second ≤ 59 →
        InRange (resyncClock li now initialState) :=
  spec_C7 initialState ⟨le_refl 0, by norm_num [initialState], le_refl 0,
    by norm_num [initialState]⟩

/-- A single operation sent to the LCD: either a cursor move or a character
print (`lcd.print` of a number prints its decimal representation, of a string
prints the string). -/
inductive LCDOp where
  | setCursor (col row : Nat)
  | printNum (n : Int)
  | printStr (s : String)
deriving Repr, DecidableEq

/-- `DIGITS`: position of digits on the display from most to least
significant. -/
def DIGITS : List Nat := [8, 9, 11, 12, 14, 15]

/-- The metric half of `updateLCD`: the loop `for (byte i = 5; i != 0; i--)`,
which prints `copy % 10` at column `DIGITS[i]` of row 0 and then divides
`copy` by 10.  The body runs for `i = 5, 4, 3, 2, 1` and stops at `i = 0`. -/
def metricDigitOps : Nat → Int → List LCDOp
  | 0, _ => []
  | Nat.succ i, copy =>
      LCDOp.setCursor (DIGITS.getD (i + 1) 0) 0 ::
      LCDOp.printNum (copy.tmod 10) ::
      metricDigitOps i (copy.tdiv 10)

/-- `if (v < 10) lcd.print("0"); lcd.print(v);` — the zero-padded two-column
print used for hours, minutes and seconds. -/
def padPrint (v : Int) : List LCDOp :=
  if v < 10 then [LCDOp.printStr "0", LCDOp.printNum v] else [LCDOp.printNum v]

/-- The real-time half of `updateLCD`: hours at `DIGITS[0]`, minutes at
`DIGITS[2]`, seconds at `DIGITS[4]`, all on row 1, each zero-padded. -/
def realTimeOps (realTime : Int) : List LCDOp :=
  let realTimeCopy := realTime
  let hours := realTimeCopy.tdiv 3600
  let afterHours := realTimeCopy.tmod 3600
  let minutes := afterHours.tdiv 60
  let afterMinutes := afterHours.tmod 60
  let seconds := afterMinutes
  (LCDOp.setCursor (DIGITS.getD 0 0) 1 :: padPrint hours) ++
    (LCDOp.setCursor (DIGITS.getD 2 0) 1 :: padPrint minutes) ++
    (LCDOp.setCursor (DIGITS.getD 4 0) 1 :: padPrint seconds)

/-- `updateLCD`: reads the globals into locals and emits the display writes;
it assigns no global, so the clock state component is returned unchanged. -/
def updateLCD (st : ClockState) : ClockState × List LCDOp :=
  let metricTimeCopy := st.metricTime
  let realTimeCopy := st.realTime
  (st, metricDigitOps 5 metricTimeCopy ++ realTimeOps realTimeCopy)

/-- `updateRealTime(doUpdate)`: tick the real clock, then refresh the display
when `doUpdate` holds (its default at every call site). -/
def updateRealTime (doUpdate : Bool) (st : ClockState) : ClockState × List LCDOp :=
  let st' := updateRealTimeState st
  (st', if doUpdate then (updateLCD st').2 else [])

/-- `updateMetricTime(doUpdate)`: tick the metric clock, then refresh the
display when `doUpdate` holds (its default at every call site). -/
def updateMetricTime (doUpdate : Bool) (st : ClockState) : ClockState × List LCDOp :=
  let st' := updateMetricTimeState st
  (st', if doUpdate then (updateLCD st').2 else [])

/-- Helper: truncating division of a natural cast by 10 is natural division. -/
theorem tdiv_ten_natCast (a : Nat) : ((a:Int)).tdiv (10:Int) = ((a / 10 : Nat) : Int) := by
  rw [show (10:Int) = ((10:Nat):Int) from rfl, ← Int.ofNat_tdiv]

/-- Helper: truncating remainder of a natural cast by 10 is natural remainder. -/
theorem tmod_ten_natCast (a : Nat) : ((a:Int)).tmod (10:Int) = ((a % 10 : Nat) : Int) := by
  rw [show (10:Int) = ((10:Nat):Int) from rfl, ← Int.ofNat_tmod]

/-- Helper: closed form of the metric digit loop for a nonnegative
`metricTime = k`: it writes exactly the five least significant decimal digits
of `k`, from column 15 (units) up to column 9 (the `10^4` digit). -/
theorem metricDigitOps_closed (k : Nat) :
    metricDigitOps 5 (k : Int) =
      [LCDOp.setCursor 15 0, LCDOp.printNum ((k % 10 : Nat) : Int),
       LCDOp.setCursor 14 0, LCDOp.printNum ((k / 10 % 10 : Nat) : Int),
       LCDOp.setCursor 12 0, LCDOp.printNum ((k / 100 % 10 : Nat) : Int),
       LCDOp.setCursor 11 0, LCDOp.printNum ((k / 1000 % 10 : Nat) : Int),
       LCDOp.setCursor 9 0, LCDOp.printNum ((k / 10000 % 10 : Nat) : Int)] := by
  norm_num [metricDigitOps, DIGITS]
  simp only [tdiv_ten_natCast, tmod_ten_natCast]
  norm_num [Nat.div_div_eq_div_mul]

/-- A concrete in-range state with `MetricTime = 12345`, used as test input. -/
def exampleState : ClockState :=
  { metricTime := 12345, realTime := 0, nextMetricTick := 864,
    nextRealTick := 1000, lastSync := 0 }

/-- C2 counterexample: at `MetricTime = 12345` (in range), the refresh emits
no digit write at column `DIGITS[0] = 8` of row 0, so only five of the six
digit columns of the metric row receive a write. -/
theorem spec_C2_counterexample :
    (0:Int) ≤ 12345 ∧ (12345:Int) < 100000 ∧
      LCDOp.setCursor (DIGITS.getD 0 0) 0 ∉
        (updateLCD exampleState).2 := by
  refine ⟨by norm_num, by norm_num, ?_⟩
  decide

/-- C2 amended: on every tick (and resync) the refresh is the full
`updateLCD` write list, which rewrites the five least significant metric
digit columns `DIGITS[1..5] = 9, 11, 12, 14, 15`, the digit at `DIGITS[i]`
being the `i`-th digit of the five-digit decimal representation of
`MetricTime`; no write is emitted at `DIGITS[0]` on the metric row. -/
theorem spec_C2_amended (st : ClockState) (k : Nat) (hk : st.metricTime = (k : Int)) :
    (updateLCD st).2 =
      [LCDOp.setCursor 15 0, LCDOp.printNum ((k % 10 : Nat) : Int),
       LCDOp.setCursor 14 0, LCDOp.printNum ((k / 10 % 10 : Nat) : Int),
       LCDOp.setCursor 12 0, LCDOp.printNum ((k / 100 % 10 : Nat) : Int),
       LCDOp.setCursor 11 0, LCDOp.printNum ((k / 1000 % 10 : Nat) : Int),
       LCDOp.setCursor 9 0, LCDOp.printNum ((k / 10000 % 10 : Nat) : Int)]
        ++ realTimeOps st.realTime ∧
      (updateRealTime true st).2 = (updateLCD (updateRealTimeState st)).2 ∧
      (updateMetricTime true st).2 = (updateLCD (updateMetricTimeState st)).2 := by
  refine ⟨?_, rfl, rfl⟩
  show metricDigitOps 5 st.metricTime ++ realTimeOps st.realTime = _
  rw [hk, metricDigitOps_closed k]

/-- C2 amended witness at `MetricTime = 12345`. -/
theorem spec_C2_amended_witness :
    (updateLCD exampleState).2 =
      [LCDOp.setCursor 15 0, LCDOp.printNum ((12345 % 10 : Nat) : Int),
       LCDOp.setCursor 14 0, LCDOp.printNum ((12345 / 10 % 10 : Nat) : Int),
       LCDOp.setCursor 12 0, LCDOp.printNum ((12345 / 100 % 10 : Nat) : Int),
       LCDOp.setCursor 11 0, LCDOp.printNum ((12345 / 1000 % 10 : Nat) : Int),
       LCDOp.setCursor 9 0, LCDOp.printNum ((12345 / 10000 % 10 : Nat) : Int)]
        ++ realTimeOps (0 : Int) :=
  (spec_C2_amended exampleState 12345 rfl).1

/-- C10: the display refresh is read-only on the clock state: `updateLCD`
leaves `RealTime`, `MetricTime`, both tick deadlines and `lastSync`
unchanged. -/
theorem spec_C10 (st : ClockState) :
    (updateLCD st).1 = st ∧
      (updateLCD st).1.realTime = st.realTime ∧
      (updateLCD st).1.metricTime = st.metricTime ∧
      (updateLCD st).1.nextMetricTick = st.nextMetricTick ∧
      (updateLCD st).1.nextRealTick = st.nextRealTick ∧
      (updateLCD st).1.lastSync = st.lastSync :=
  ⟨rfl, rfl, rfl, rfl, rfl, rfl⟩

/-- Wrapping subtraction `a - b` on `unsigned long` (32-bit): the value
`(a - b) mod 2^32`. -/
def uSub32 (a b : Nat) : Nat :=
  (a % UINT32_MOD + (UINT32_MOD - b % UINT32_MOD)) % UINT32_MOD

/-- The tick-due test of the loop:
`int delta = millis() - next; if (delta >= 0) ...` — the wrapping 32-bit
subtraction is stored into a 16-bit `int` and compared against 0. -/
def tickDue (now next : Nat) : Prop :=
  0 ≤ toSigned16 (uSub32 now next)

instance (now next : Nat) : Decidable (tickDue now next) :=
  inferInstanceAs (Decidable (0 ≤ toSigned16 (uSub32 now next)))

/-- Advancing a tick deadline on firing: `next += interval` in `unsigned
long` arithmetic.  The increment is the fixed interval, not `now + interval`. -/
def stepDeadline (interval d : Nat) : Nat :=
  (d + interval) % UINT32_MOD

/-- The metric-tick branch of `loop()`: when due, advance the deadline by
864 ms and tick the metric clock (which refreshes the display). -/
def metricPhase (now : Nat) (st : ClockState) : ClockState × Bool × List LCDOp :=
  if tickDue now st.nextMetricTick then
    let st' := { st with nextMetricTick := stepDeadline 864 st.nextMetricTick }
    let r := updateMetricTime true st'
    (r.1, true, r.2)
  else (st, false, [])

/-- The real-tick branch of `loop()`: when due, advance the deadline by
1000 ms and tick the real clock (which refreshes the display). -/
def realPhase (now : Nat) (st : ClockState) : ClockState × Bool × List LCDOp :=
  if tickDue now st.nextRealTick then
    let st' := { st with nextRealTick := stepDeadline 1000 st.nextRealTick }
    let r := updateRealTime true st'
    (r.1, true, r.2)
  else (st, false, [])

/-- Helper: `k` deadline advances from a representable initial deadline land
on `(initial + k * interval) mod 2^32`. -/
theorem stepDeadline_iterate (i k init : Nat) (h : init < UINT32_MOD) :
    (stepDeadline i)^[k] init = (init + k * i) % UINT32_MOD := by
  induction k with
  | zero => simpa using (Nat.mod_eq_of_lt h).symm
  | succ k ih =>
      rw [Function.iterate_succ_apply', ih]
      unfold stepDeadline UINT32_MOD
      have : (k + 1) * i = k * i + i := by ring
      omega

/-- C4: the scheduler is fixed-rate: firing advances the deadline by exactly
the fixed interval (independent of the sampled `now`, however late the
service is), and therefore `k` services from deadline `initial` put the
deadline at `initial + k*interval` (mod 2^32), exactly. -/
theorem spec_C4 (k init : Nat) (h : init < UINT32_MOD) :
    ((stepDeadline 864)^[k] init = (init + k * 864) % UINT32_MOD ∧
      (stepDeadline 1000)^[k] init = (init + k * 1000) % UINT32_MOD) ∧
    (∀ (now : Nat) (st : ClockState), tickDue now st.nextMetricTick →
      (metricPhase now st).1.nextMetricTick = stepDeadline 864 st.nextMetricTick) ∧
    (∀ (now : Nat) (st : ClockState), tickDue now st.nextRealTick →
      (realPhase now st).1.nextRealTick = stepDeadline 1000 st.nextRealTick) := by
  refine ⟨⟨stepDeadline_iterate 864 k init h, stepDeadline_iterate 1000 k init h⟩, ?_, ?_⟩
  · intro now st hd
    unfold metricPhase
    rw [if_pos hd]
    rfl
  · intro now st hd
    unfold realPhase
    rw [if_pos hd]
    rfl

/-- C4 witness: three serviced metric ticks from deadline 864 land exactly on
864 + 3*864, and a service 6 ms late still advances by exactly 864. -/
theorem spec_C4_witness :
    ((stepDeadline 864)^[3] 864 = (864 + 3 * 864) % UINT32_MOD ∧
      (stepDeadline 1000)^[3] 864 = (864 + 3 * 1000) % UINT32_MOD) ∧
    (∀ (now : Nat) (st : ClockState), tickDue now st.nextMetricTick →
      (metricPhase now st).1.nextMetricTick = stepDeadline 864 st.nextMetricTick) ∧
    (∀ (now : Nat) (st : ClockState), tickDue now st.nextRealTick →
      (realPhase now st).1.nextRealTick = stepDeadline 1000 st.nextRealTick) :=
  spec_C4 3 864 (by norm_num [UINT32_MOD])

/-- C5 counterexample: with deadline `next = 0` and `now = 40000` the true
elapsed time since the deadline is +40000 ms — positive, and less than one
hundred-thousandth of the 2^32 ms counter wrap period — yet the due test
reports NOT due, because the delta is truncated to a 16-bit `int`
(40000 mod 2^16 = 40000 reinterprets as −25536). -/
theorem spec_C5_counterexample :
    ¬ tickDue 40000 0 ∧ 40000 * 100000 < UINT32_MOD ∧
      toSigned16 (uSub32 40000 0) = -25536 := by
  refine ⟨by decide, by norm_num [UINT32_MOD], by decide⟩

/-- C5 amended: the due test is the wrapping subtraction `now - next`
truncated to a 16-bit signed `int` and compared against 0; for absolute
times `N` (now) and `D` (deadline) on the unwrapped millisecond timeline
whose true difference lies in `[-32768, 32768)`, the test on the wrapped
32-bit counter values reports due exactly when `D ≤ N` — in particular it
stays correct across the counter's wrap from `2^32 - 1` to 0. -/
theorem spec_C5_amended (N D : Nat) (h1 : D ≤ N + 32768) (h2 : N < D + 32768) :
    tickDue (N % UINT32_MOD) (D % UINT32_MOD) ↔ D ≤ N := by
  unfold tickDue toSigned16 uSub32 UINT16_MOD UINT32_MOD
  rcases le_or_lt D N with hc | hc
  · have hx : ((N % 4294967296 % 4294967296 +
        (4294967296 - D % 4294967296 % 4294967296)) % 4294967296) % 65536 = N - D := by
      omega
    rw [hx]
    split
    · simp only [iff_true_intro hc, iff_true]
      positivity
    · omega
  · have hx : ((N % 4294967296 % 4294967296 +
        (4294967296 - D % 4294967296 % 4294967296)) % 4294967296) % 65536 =
        65536 - (D - N) := by
      omega
    rw [hx]
    split
    · omega
    · constructor
      · intro hle
        omega
      · intro hle
        omega

/-- C5 amended witness: a deadline at absolute time `2^32 - 500` serviced at
absolute time `2^32 + 5` (counter wrapped to 5) is correctly reported due. -/
theorem spec_C5_amended_witness :
    (tickDue (4294967801 % UINT32_MOD) (4294966796 % UINT32_MOD) ↔
      4294966796 ≤ 4294967801) ∧ tickDue 505 4294966796 :=
  ⟨spec_C5_amended 4294967801 4294966796 (by norm_num) (by norm_num),
    by decide⟩

/-- `syncGPSTime`: read the GPS into the authoritative clock (a no-op when
invalid), then recompute both counters from the timezone-converted local
instant and refresh the display.  `toLocal` is the external
`ET.toLocal(now())` timezone conversion, applied to the authoritative
clock. -/
def syncGPSTime (toLocal : TimeLibState → LocalInstant) (g : GPSTime) (now : Nat)
    (t : TimeLibState) (st : ClockState) : TimeLibState × ClockState × List LCDOp :=
  let t' := getGPSTime g t
  let st' := resyncClock (toLocal t') now st
  (t', st', (updateLCD st').2)

/-- The resync gate of `loop()`:
`long syncDelta = millis() - lastSync; if (metricTime % 125 == 0 && syncDelta > 5000)`.
The wrapping 32-bit subtraction is stored in a signed 32-bit `long`. -/
def shouldResyncCond (now : Nat) (st : ClockState) : Prop :=
  st.metricTime.tmod 125 = 0 ∧ 5000 < toSigned32 (uSub32 now st.lastSync)

instance (now : Nat) (st : ClockState) : Decidable (shouldResyncCond now st) :=
  inferInstanceAs (Decidable (_ ∧ _))

/-- The resync branch of `loop()`: when the gate holds, record
`lastSync = millis()` and perform `syncGPSTime()`. -/
def syncPhase (toLocal : TimeLibState → LocalInstant) (g : GPSTime) (now : Nat)
    (t : TimeLibState) (st : ClockState) :
    TimeLibState × ClockState × Bool × List LCDOp :=
  if shouldResyncCond now st then
    let st0 := { st with lastSync := now }
    let r := syncGPSTime toLocal g now t st0
    (r.1, r.2.1, true, r.2.2)
  else (t, st, false, [])

/-- The outcome of one `loop()` iteration. -/
structure LoopResult where
  timeLib : TimeLibState
  clock : ClockState
  resynced : Bool
  metricTicked : Bool
  realTicked : Bool
  ops : List LCDOp
deriving Repr, DecidableEq

/-- One iteration of `loop()` at time `now`: the resync gate, then the metric
tick check, then the real tick check, in source order.  (Draining the GPS
transport only feeds the external parser, whose decoded state is the input
`g`.) -/
def loopIter (toLocal : TimeLibState → LocalInstant) (g : GPSTime) (now : Nat)
    (t : TimeLibState) (st : ClockState) : LoopResult :=
  let s := syncPhase toLocal g now t st
  let m := metricPhase now s.2.1
  let r := realPhase now m.1
  { timeLib := s.1, clock := r.1, resynced := s.2.2.1,
    metricTicked := m.2.1, realTicked := r.2.1,
    ops := s.2.2.2 ++ m.2.2 ++ r.2.2 }

/-- Helper: the tick phases never touch `lastSync`. -/
theorem metricPhase_lastSync (now : Nat) (st : ClockState) :
    (metricPhase now st).1.lastSync = st.lastSync := by
  unfold metricPhase
  split <;> rfl

/-- Helper: the real tick phase never touches `lastSync`. -/
theorem realPhase_lastSync (now : Nat) (st : ClockState) :
    (realPhase now st).1.lastSync = st.lastSync := by
  unfold realPhase
  split <;> rfl

/-- Helper: the signed 32-bit view of the wrapped difference is the plain
difference when `b ≤ a < 2^32` and the difference is below `2^31`. -/
theorem toSigned32_uSub32 (a b : Nat) (hb : b ≤ a) (ha : a < UINT32_MOD)
    (hd : a - b < 2147483648) :
    toSigned32 (uSub32 a b) = ((a - b : Nat) : Int) := by
  unfold toSigned32 uSub32 UINT32_MOD at *
  have hx : (a % 4294967296 + (4294967296 - b % 4294967296)) % 4294967296 = a - b := by
    omega
  rw [hx]
  rw [if_pos (by omega)]
  congr 1
  omega

/-- Helper: immediately after a deadline is re-phased to `now + i` (for a
positive interval `i` at most 32768 ms), the due test does not fire at `now`. -/
theorem not_tickDue_after_reset (now i : Nat) (hnow : now < UINT32_MOD)
    (h1 : 0 < i) (h2 : i ≤ 32768) :
    ¬ tickDue now ((now + i) % UINT32_MOD) := by
  unfold tickDue toSigned16 uSub32 UINT16_MOD UINT32_MOD
  intro hcon
  have hx : (now % 4294967296 +
      (4294967296 - (now + i) % 4294967296 % 4294967296)) % 4294967296 =
      4294967296 - i := by
    unfold UINT32_MOD at hnow
    omega
  rw [hx] at hcon
  have hx2 : (4294967296 - i) % 65536 = 65536 - i := by omega
  rw [hx2] at hcon
  rw [if_neg (by omega)] at hcon
  have : ((65536 - i : Nat) : Int) < 65536 := by
    have : (65536 - i : Nat) < 65536 := by omega
    exact_mod_cast this
  omega

/-- Helper: when the resync gate holds, a loop iteration reads the GPS,
resyncs both clocks with `lastSync = now`, and neither tick fires in the
same iteration (both deadlines were just re-phased into the future). -/
theorem loopIter_fire (toLocal : TimeLibState → LocalInstant) (g : GPSTime)
    (now : Nat) (t : TimeLibState) (st : ClockState)
    (hnow : now < UINT32_MOD) (hc : shouldResyncCond now st) :
    loopIter toLocal g now t st =
      { timeLib := getGPSTime g t,
        clock := resyncClock (toLocal (getGPSTime g t)) now { st with lastSync := now },
        resynced := true, metricTicked := false, realTicked := false,
        ops := (updateLCD (resyncClock (toLocal (getGPSTime g t)) now
          { st with lastSync := now })).2 } := by
  have hm : ¬ tickDue now ((now + 864) % UINT32_MOD) :=
    not_tickDue_after_reset now 864 hnow (by norm_num) (by norm_num)
  have hr : ¬ tickDue now ((now + 1000) % UINT32_MOD) :=
    not_tickDue_after_reset now 1000 hnow (by norm_num) (by norm_num)
  simp only [loopIter, syncPhase, syncGPSTime, metricPhase, realPhase,
    resyncClock, setMetricTime, setRealTime, if_pos hc, if_neg hm, if_neg hr,
    List.append_nil]

/-- Helper: when the resync gate fails, a loop iteration performs no resync:
the authoritative clock and `lastSync` are untouched. -/
theorem loopIter_nofire (toLocal : TimeLibState → LocalInstant) (g : GPSTime)
    (now : Nat) (t : TimeLibState) (st : ClockState)
    (hc : ¬ shouldResyncCond now st) :
    (loopIter toLocal g now t st).resynced = false ∧
      (loopIter toLocal g now t st).clock.lastSync = st.lastSync ∧
      (loopIter toLocal g now t st).timeLib = t := by
  refine ⟨?_, ?_, ?_⟩
  · show (syncPhase toLocal g now t st).2.2.1 = false
    rw [syncPhase, if_neg hc]
  · show (realPhase now (metricPhase now (syncPhase toLocal g now t st).2.1).1).1.lastSync = _
    rw [realPhase_lastSync, metricPhase_lastSync]
    rw [syncPhase, if_neg hc]
  · show (syncPhase toLocal g now t st).1 = t
    rw [syncPhase, if_neg hc]

/-- C1: a loop iteration resyncs exactly when `metricTime % 125 == 0` and
`now - lastSync > 5000`; on firing, `lastSync` is set to `now` and the
full resync (GPS read, both counters recomputed) is performed; otherwise no
resync occurs and `lastSync` is unchanged.  (Stated on the no-wrap window
`lastSync ≤ now`, `now - lastSync < 2^31`, where the signed wrapped delta is
the plain difference.) -/
theorem spec_C1 (toLocal : TimeLibState → LocalInstant) (g : GPSTime) (now : Nat)
    (t : TimeLibState) (st : ClockState)
    (hnow : now < UINT32_MOD) (hls : st.lastSync ≤ now)
    (hdelta : now - st.lastSync < 2147483648) :
    ((loopIter toLocal g now t st).resynced = true ↔
        (st.metricTime.tmod 125 = 0 ∧ 5000 < now - st.lastSync)) ∧
      ((st.metricTime.tmod 125 = 0 ∧ 5000 < now - st.lastSync) →
        (loopIter toLocal g now t st).clock.lastSync = now ∧
          (loopIter toLocal g now t st).timeLib = getGPSTime g t ∧
          (loopIter toLocal g now t st).clock =
            resyncClock (toLocal (getGPSTime g t)) now { st with lastSync := now }) ∧
      (¬(st.metricTime.tmod 125 = 0 ∧ 5000 < now - st.lastSync) →
        (loopIter toLocal g now t st).resynced = false ∧
          (loopIter toLocal g now t st).clock.lastSync = st.lastSync ∧
          (loopIter toLocal g now t st).timeLib = t) := by
  have hgate : shouldResyncCond now st ↔
      (st.metricTime.tmod 125 = 0 ∧ 5000 < now - st.lastSync) := by
    unfold shouldResyncCond
    rw [toSigned32_uSub32 now st.lastSync hls hnow hdelta]
    constructor
    · rintro ⟨u, v⟩
      exact ⟨u, by exact_mod_cast v⟩
    · rintro ⟨u, v⟩
      exact ⟨u, by exact_mod_cast v⟩
  by_cases hc : shouldResyncCond now st
  · have hfire := loopIter_fire toLocal g now t st hnow hc
    refine ⟨?_, ?_, ?_⟩
    · rw [hfire]
      simpa using hgate.mp hc
    · intro _
      rw [hfire]
      refine ⟨?_, rfl, rfl⟩
      show (resyncClock (toLocal (getGPSTime g t)) now { st with lastSync := now }).lastSync = now
      rfl
    · intro hn
      exact absurd (hgate.mp hc) hn
  · have hnof := loopIter_nofire toLocal g now t st hc
    refine ⟨?_, ?_, fun _ => hnof⟩
    · rw [hnof.1]
      simp only [Bool.false_eq_true, false_iff]
      exact fun h => hc (hgate.mpr h)
    · intro h
      exact absurd (hgate.mpr h) hc

/-- C1 witness: at `metricTime = 250`, `lastSync = 0`, `now = 6000` the gate
fires; the recorded `lastSync` becomes 6000. -/
theorem spec_C1_witness :
    ((loopIter (fun t => ⟨t.hour, t.minute, t.second⟩) ⟨true, 1, 2, 3, 4, 5, 2023⟩ 6000
        ⟨0, 0, 0, 1, 1, 2000⟩ { initialState with metricTime := 250 }).resynced = true ↔
      (({ initialState with metricTime := 250 } : ClockState).metricTime.tmod 125 = 0 ∧
        5000 < 6000 - ({ initialState with metricTime := 250 } : ClockState).lastSync)) ∧
    ((({ initialState with metricTime := 250 } : ClockState).metricTime.tmod 125 = 0 ∧
        5000 < 6000 - ({ initialState with metricTime := 250 } : ClockState).lastSync) →
      (loopIter (fun t => ⟨t.hour, t.minute, t.second⟩) ⟨true, 1, 2, 3, 4, 5, 2023⟩ 6000
          ⟨0, 0, 0, 1, 1, 2000⟩ { initialState with metricTime := 250 }).clock.lastSync = 6000 ∧
        (loopIter (fun t => ⟨t.hour, t.minute, t.second⟩) ⟨true, 1, 2, 3, 4, 5, 2023⟩ 6000
          ⟨0, 0, 0, 1, 1, 2000⟩ { initialState with metricTime := 250 }).timeLib =
            getGPSTime ⟨true, 1, 2, 3, 4, 5, 2023⟩ ⟨0, 0, 0, 1, 1, 2000⟩ ∧
        (loopIter (fun t => ⟨t.hour, t.minute, t.second⟩) ⟨true, 1, 2, 3, 4, 5, 2023⟩ 6000
          ⟨0, 0, 0, 1, 1, 2000⟩ { initialState with metricTime := 250 }).clock =
          resyncClock ((fun t => (⟨t.hour, t.minute, t.second⟩ : LocalInstant))
              (getGPSTime ⟨true, 1, 2, 3, 4, 5, 2023⟩ ⟨0, 0, 0, 1, 1, 2000⟩)) 6000
            { { initialState with metricTime := 250 } with lastSync := 6000 }) ∧
    (¬(({ initialState with metricTime := 250 } : ClockState).metricTime.tmod 125 = 0 ∧
        5000 < 6000 - ({ initialState with metricTime := 250 } : ClockState).lastSync) →
      (loopIter (fun t => ⟨t.hour, t.minute, t.second⟩) ⟨true, 1, 2, 3, 4, 5, 2023⟩ 6000
          ⟨0, 0, 0, 1, 1, 2000⟩ { initialState with metricTime := 250 }).resynced = false ∧
        (loopIter (fun t => ⟨t.hour, t.minute, t.second⟩) ⟨true, 1, 2, 3, 4, 5, 2023⟩ 6000
          ⟨0, 0, 0, 1, 1, 2000⟩ { initialState with metricTime := 250 }).clock.lastSync =
            ({ initialState with metricTime := 250 } : ClockState).lastSync ∧
        (loopIter (fun t => ⟨t.hour, t.minute, t.second⟩) ⟨true, 1, 2, 3, 4, 5, 2023⟩ 6000
          ⟨0, 0, 0, 1, 1, 2000⟩ { initialState with metricTime := 250 }).timeLib =
          ⟨0, 0, 0, 1, 1, 2000⟩) :=
  spec_C1 (fun t => ⟨t.hour, t.minute, t.second⟩) ⟨true, 1, 2, 3, 4, 5, 2023⟩ 6000
    ⟨0, 0, 0, 1, 1, 2000⟩ { initialState with metricTime := 250 }
    (by norm_num [UINT32_MOD]) (by norm_num [initialState]) (by norm_num [initialState])

/-- The continuation test of the start-up acquisition loop in `setup()`:
`gps.time.isValid() == false || isMidnight`, where
`isMidnight = bool(gps.time.hour() == 0 && gps.time.minute() == 0)` is
computed from the decoded GPS state (seconds are not consulted). -/
def continueWaiting (g : GPSTime) : Bool :=
  (g.valid == false) || (g.hour == 0 && g.minute == 0)

/-- C8 counterexample: at the decoded state valid, 00:00:30 — a valid time
other than exactly midnight 00:00:00 — the start-up loop still continues
waiting, because the midnight test checks only hour and minute. -/
theorem spec_C8_counterexample :
    continueWaiting ⟨true, 0, 0, 30, 1, 1, 2023⟩ = true ∧
      (⟨true, 0, 0, 30, 1, 1, 2023⟩ : GPSTime).valid = true ∧
      ¬((⟨true, 0, 0, 30, 1, 1, 2023⟩ : GPSTime).hour = 0 ∧
        (⟨true, 0, 0, 30, 1, 1, 2023⟩ : GPSTime).minute = 0 ∧
        (⟨true, 0, 0, 30, 1, 1, 2023⟩ : GPSTime).second = 0) := by
  refine ⟨rfl, rfl, ?_⟩
  rintro ⟨-, -, hs⟩
  exact absurd hs (by decide)

/-- C8 amended: for every decoded GPS state, the start-up loop continues
waiting iff the validity flag is false or the decoded time lies in the first
minute of the day (`hour = 0` and `minute = 0`, seconds ignored); any valid
time outside minute 00:00 lets initialization proceed to the first resync. -/
theorem spec_C8_amended (g : GPSTime) :
    continueWaiting g = true ↔ (g.valid = false ∨ (g.hour = 0 ∧ g.minute = 0)) := by
  simp [continueWaiting]

/-- C9: when the GPS validity flag is false, `getGPSTime` is a no-op — the
authoritative clock is returned exactly as it was — and consequently
`syncGPSTime` leaves the authoritative clock untouched too. -/
theorem spec_C9 (g : GPSTime) (h : g.valid = false) :
    (∀ t : TimeLibState, getGPSTime g t = t) ∧
      (∀ (toLocal : TimeLibState → LocalInstant) (now : Nat) (t : TimeLibState)
        (st : ClockState), (syncGPSTime toLocal g now t st).1 = t) := by
  have hg : ∀ t : TimeLibState, getGPSTime g t = t := by
    intro t
    unfold getGPSTime
    rw [if_pos h]
  exact ⟨hg, fun toLocal now t st => hg t⟩

/-- C9 witness at a concrete invalid reading. -/
theorem spec_C9_witness :
    (∀ t : TimeLibState, getGPSTime ⟨false, 9, 9, 9, 1, 1, 2023⟩ t = t) ∧
      (∀ (toLocal : TimeLibState → LocalInstant) (now : Nat) (t : TimeLibState)
        (st : ClockState),
        (syncGPSTime toLocal ⟨false, 9, 9, 9, 1, 1, 2023⟩ now t st).1 = t) :=
  spec_C9 ⟨false, 9, 9, 9, 1, 1, 2023⟩ rfl
